import Mathlib

/-!
Verification of the Malaysia dashboard client-side modules.

The JavaScript sources are shallowly embedded in Lean:
pure helpers become Lean functions over rationals, naturals and strings;
DOM state and the Leaflet map become explicit state records;
network calls become explicit response values threaded through
the routine together with a trace of observable effects.

Layout: all definitions (the embedding) first, then the lemmas
and the claim theorems.
-/

/-- Digit part of `Number.prototype.toFixed(d)`: print the magnitude `n`
(already scaled by `10^d` and rounded) with exactly `d` digits after the
dot, left-padding the fractional part with zeros. -/
def jsToFixedNat (d n : ℕ) : String :=
  if d = 0 then toString n
  else toString (n / 10 ^ d) ++ "." ++
    String.mk (List.replicate (d - (toString (n % 10 ^ d)).length) '0') ++ toString (n % 10 ^ d)

/-- Rounding part of `toFixed(d)`: `|q| * 10^d` rounded to the nearest
integer, ties away from zero (the ECMAScript algorithm takes the absolute
value and picks the larger of the two closest candidates). -/
def jsRound (d : ℕ) (q : ℚ) : ℕ := (Int.floor (|q| * (10 : ℚ) ^ d + 1/2)).toNat

/-- Model of JavaScript `q.toFixed(d)` on exact rationals. -/
def jsToFixed (d : ℕ) (q : ℚ) : String :=
  (if q < 0 then "-" else "") ++ jsToFixedNat d (jsRound d q)

namespace Dashboard

/-- Embedding of `Dashboard.formatNumber(num, decimals = 1)` from
dashboard-core.js (v2): thresholds `1e9`/`1e6`/`1e3` checked with `>=` on the
raw value, scaling by the threshold and appending `B`/`M`/`k`. -/
def formatNumber (num : ℚ) (decimals : ℕ) : String :=
  if (1000000000 : ℚ) ≤ num then jsToFixed decimals (num / 1000000000) ++ "B"
  else if (1000000 : ℚ) ≤ num then jsToFixed decimals (num / 1000000) ++ "M"
  else if (1000 : ℚ) ≤ num then jsToFixed decimals (num / 1000) ++ "k"
  else jsToFixed decimals num

/-- Embedding of `Dashboard.formatPercentage(value, decimals = 1)` from
dashboard-core.js (v2): a value inside `[0, 1]` is multiplied by 100 before
formatting, any other value is formatted unchanged; `%` is appended. -/
def formatPercentage (value : ℚ) (decimals : ℕ) : String :=
  (if 0 ≤ value ∧ value ≤ 1 then jsToFixed decimals (value * 100)
   else jsToFixed decimals value) ++ "%"

/-- The unit table (B, KB, MB, GB) of the file-size formatters. -/
def sizeUnits : List String := ["B", "KB", "MB", "GB"]

/-- The logarithmic branch of `Dashboard.formatFileSize`: byte counts are
modelled as naturals, so `Math.floor(Math.log(bytes) / Math.log(1024))` is the
exact integer logarithm `Nat.log 1024 bytes`; an index past the unit table
reads as the JavaScript `undefined`. -/
def fileSizeLogBranch (bytes : ℕ) : String :=
  jsToFixed 1 ((bytes : ℚ) / 1024 ^ Nat.log 1024 bytes) ++ " " ++
    sizeUnits.getD (Nat.log 1024 bytes) "undefined"

/-- Embedding of `Dashboard.formatFileSize(bytes)` from dashboard-core.js:
whose guard returns the string `0 B` for falsy input — over natural byte counts the falsy inputs are
exactly `0` — otherwise the logarithmic unit-selection branch runs. -/
def formatFileSize (bytes : ℕ) : String :=
  if bytes = 0 then "0 B" else fileSizeLogBranch bytes

end Dashboard

namespace formatUtils

/-- Embedding of `formatUtils.number(num, decimals = 1)` from dashboard.js:
same as the core formatter but without the `B` branch. -/
def number (num : ℚ) (decimals : ℕ) : String :=
  if (1000000 : ℚ) ≤ num then jsToFixed decimals (num / 1000000) ++ "M"
  else if (1000 : ℚ) ≤ num then jsToFixed decimals (num / 1000) ++ "k"
  else jsToFixed decimals num

/-- Embedding of `formatUtils.fileSize(bytes)` from dashboard.js:
a strict equality-with-zero guard returning `0 B`, then the same logarithmic branch. -/
def fileSize (bytes : ℕ) : String :=
  if bytes = 0 then "0 B" else Dashboard.fileSizeLogBranch bytes

/-- Embedding of `formatUtils.percentage(value, decimals = 1)` from
dashboard.js: same scaling rule as the core formatter. -/
def percentage (value : ℚ) (decimals : ℕ) : String :=
  (if 0 ≤ value ∧ value ≤ 1 then jsToFixed decimals (value * 100)
   else jsToFixed decimals value) ++ "%"

end formatUtils

/-- Embedding of the v1.0 `Dashboard.formatNumber(num)` of dashboard-core.js
(the earlier revision kept alongside v2): thresholds tested on the absolute
value, one fixed decimal, no `B` branch; the `num == null || isNaN(num)`
guard is outside this model since inputs are exact rationals. -/
def formatNumberCoreV1 (num : ℚ) : String :=
  if 1000000 ≤ |num| then jsToFixed 1 (num / 1000000) ++ "M"
  else if 1000 ≤ |num| then jsToFixed 1 (num / 1000) ++ "k"
  else jsToFixed 1 num

namespace apiClient

/-- Outcome of one underlying `fetch` attempt inside `apiClient.request`:
either the parsed JSON payload (the attempt reached `response.json()` with
`response.ok` true), or a thrown error (network failure, non-ok HTTP status,
or JSON parse failure) carrying its message. -/
inductive FetchOutcome (α : Type) where
  | success (data : α)
  | failure (msg : String)
deriving DecidableEq

/-- Result of a whole `apiClient.request` call: the settled promise (`.ok`
with the parsed response, or `.error` with the single aggregated message),
the final value of `window.dashboardState.retryCount`, and the list of
backoff delays (in ms) awaited between failed attempts, in order. -/
structure RequestResult (α : Type) where
  outcome : Except String α
  retryCountState : ℕ
  delays : List ℕ

/-- Loop body of `apiClient.request` from dashboard.js, driven by the list of
successive fetch outcomes. `retryCount` is the local counter, `stateRC` the
shared `dashboardState.retryCount` on entry. An exhausted outcome list models
a fetch that never settles, so the promise stays pending. -/
def requestLoop {α : Type} (maxRetries retryCount stateRC : ℕ) :
    List (FetchOutcome α) → RequestResult α
  | [] => ⟨.error "pending", stateRC, []⟩
  | .success d :: _ => ⟨.ok d, 0, []⟩
  | .failure msg :: rest =>
    let rc := retryCount + 1
    if maxRetries < rc then
      ⟨.error ("Échec après " ++ toString maxRetries ++ " tentatives: " ++ msg), rc, []⟩
    else
      let r := requestLoop maxRetries rc rc rest
      ⟨r.outcome, r.retryCountState, 2 ^ rc * 1000 :: r.delays⟩

/-- Embedding of `apiClient.request(url, options)` from dashboard.js: the
loop starts with a local retry count of 0; `DASHBOARD_CONFIG.maxRetries`
is passed explicitly (its configured value is 3). -/
def request {α : Type} (maxRetries : ℕ) (outcomes : List (FetchOutcome α)) :
    RequestResult α :=
  requestLoop maxRetries 0 0 outcomes

end apiClient

namespace Dashboard

/-- The closed set of tab identifiers handled by `Dashboard.loadTabContent`
(dashboard-core.js v2, `setupTabEvents`/`loadTabContent`). -/
inductive TabId where
  | overview
  | consumption
  | buildings
  | analysis
  | data
  | settings
deriving DecidableEq

/-- One tab pane element: whether `document.getElementById` finds it, and its
`dataset.loaded` flag (the source only ever writes the truthy string `true`
into the flag, so a boolean captures it). -/
structure TabContainer where
  present : Bool
  loaded : Bool
deriving DecidableEq

/-- The tab panes of the document, indexed by tab id. -/
def TabDom := TabId → TabContainer

/-- Observable effect of a tab-content loader: a static markup injection
(an `innerHTML` write) into the named pane, or a network fetch. -/
inductive TabEffect where
  | contentLoad (tab : TabId)
  | fetch (url : String)
deriving DecidableEq

/-- Point update of one pane. -/
def setTab (s : TabDom) (t : TabId) (c : TabContainer) : TabDom :=
  fun u => if u = t then c else s u

/-- Shared body of the five static loaders of dashboard-core.js v2
(`loadConsumptionContent`, `loadBuildingsContent`, `loadAnalysisContent`,
`loadDataContent`, `loadSettingsContent`): bail out when the pane is missing
or already flagged (`if (!el || el.dataset.loaded) return;`), otherwise
inject the static markup once and set the `dataset.loaded` flag.
None of the five bodies performs a network fetch. -/
def loadStaticContent (t : TabId) (s : TabDom) : TabDom × List TabEffect :=
  if !(s t).present || (s t).loaded then (s, [])
  else (setTab s t ⟨(s t).present, true⟩, [.contentLoad t])

/-- Embedding of `Dashboard.loadConsumptionContent` (dashboard-core.js v2, target pane
`#consumption`). -/
def loadConsumptionContent (s : TabDom) : TabDom × List TabEffect :=
  loadStaticContent .consumption s

/-- Embedding of `Dashboard.loadBuildingsContent` (dashboard-core.js v2, pane
`#buildings`). -/
def loadBuildingsContent (s : TabDom) : TabDom × List TabEffect :=
  loadStaticContent .buildings s

/-- Embedding of `Dashboard.loadAnalysisContent` (dashboard-core.js v2, pane
`#analysis`). -/
def loadAnalysisContent (s : TabDom) : TabDom × List TabEffect :=
  loadStaticContent .analysis s

/-- Embedding of `Dashboard.loadDataContent` (dashboard-core.js v2, pane `#data`). -/
def loadDataContent (s : TabDom) : TabDom × List TabEffect :=
  loadStaticContent .data s

/-- Embedding of `Dashboard.loadSettingsContent` (dashboard-core.js v2, pane
`#settings`). -/
def loadSettingsContent (s : TabDom) : TabDom × List TabEffect :=
  loadStaticContent .settings s

/-- Embedding of `Dashboard.loadTabContent(tabId)` from dashboard-core.js v2: the
`overview` case is a comment `// Déjà chargé` followed by `break` — it loads
nothing and touches no flag. -/
def loadTabContent (tab : TabId) (s : TabDom) : TabDom × List TabEffect :=
  match tab with
  | .overview => (s, [])
  | .consumption => loadConsumptionContent s
  | .buildings => loadBuildingsContent s
  | .analysis => loadAnalysisContent s
  | .data => loadDataContent s
  | .settings => loadSettingsContent s

/-- A document state in which every tab pane exists and no loaded-flag is
set — the state right after the sidebar markup is injected. -/
def tabDomAllFresh : TabDom := fun _ => ⟨true, false⟩

end Dashboard

/-- Result of one `fetch(url)` as seen by a routine that does not inspect the
HTTP status: either the promise rejects (network error), or a response
arrives with a status code and a body; `none` as body means
`response.json()` throws (non-JSON body). -/
inductive FetchResult (β : Type) where
  | networkError (msg : String)
  | response (status : ℕ) (body : Option β)

/-- Observable events of a data-fetching routine, in order: the outgoing
request with its full URL, any `console.error` with its fixed context string,
and the invocation of the module renderer on the received payload. -/
inductive TraceEvent where
  | fetchReq (url : String)
  | consoleError (context : String)
  | rendered
deriving DecidableEq

namespace DashboardMaps

/-- A Leaflet layer as used by dashboard-maps.js: the base tile layer, a
`L.circleMarker` (with its data-bearing options), or a `L.heatLayer`. -/
inductive Layer where
  | tile
  | circleMarker (lat lng : ℚ) (color : String) (popup : String)
  | heat (points : List (ℚ × ℚ × ℚ))
deriving DecidableEq

/-- Predicate for `layer instanceof L.CircleMarker`. -/
def Layer.isCircleMarker : Layer → Bool
  | .circleMarker _ _ _ _ => true
  | _ => false

/-- Predicate for `layer instanceof L.HeatLayer`. -/
def Layer.isHeatLayer : Layer → Bool
  | .heat _ => true
  | _ => false

/-- The Leaflet map instance `Dashboard.state.map`: its layer list (in
insertion order) and its current view (center, zoom). -/
structure LeafletMap where
  layers : List Layer
  view : Option ((ℚ × ℚ) × ℚ)
deriving DecidableEq

/-- One entry of `map_data.markers`. -/
structure MarkerData where
  lat : ℚ
  lng : ℚ
  color : String
  popup : String
deriving DecidableEq

/-- The `map_data` payload of `/api/map/buildings`; `none` fields model
absent/null JSON members (falsy in the JavaScript guards). -/
structure MapData where
  markers : Option (List MarkerData)
  center : Option (ℚ × ℚ)
  zoom : Option ℚ
deriving DecidableEq

/-- The `heatmap_data` payload of `/api/map/consumption-heatmap`. -/
structure HeatmapData where
  heatmap_points : Option (List (ℚ × ℚ × ℚ))
  center : Option (ℚ × ℚ)
  zoom : Option ℚ
deriving DecidableEq

/-- Embedding of `DashboardMaps.renderBuildingsOnMap(mapData)`: bail out when the map or
`mapData.markers` is absent; otherwise remove every `L.CircleMarker` layer,
add one circle marker per entry, and set the view when both `center` and
`zoom` are truthy (a zoom of 0 is falsy in JavaScript). -/
def renderBuildingsOnMap (st : Option LeafletMap) (mapData : MapData) :
    Option LeafletMap :=
  match st, mapData.markers with
  | none, _ => none
  | some m, none => some m
  | some m, some ms =>
    let cleared := m.layers.filter (fun l => !l.isCircleMarker)
    let added := cleared ++ ms.map (fun d => Layer.circleMarker d.lat d.lng d.color d.popup)
    let newView := match mapData.center, mapData.zoom with
      | some c, some z => if z ≠ 0 then some (c, z) else m.view
      | _, _ => m.view
    some ⟨added, newView⟩

/-- Embedding of `DashboardMaps.renderConsumptionHeatmap(heatmapData)`: bail out when the
map or `heatmap_points` is absent; otherwise remove every `L.CircleMarker`
and `L.HeatLayer` layer and, when the point list is non-empty, add one heat
layer and set the view (`heatmapData.zoom || 7`). -/
def renderConsumptionHeatmap (st : Option LeafletMap) (hd : HeatmapData) :
    Option LeafletMap :=
  match st, hd.heatmap_points with
  | none, _ => none
  | some m, none => some m
  | some m, some pts =>
    let cleared := m.layers.filter (fun l => !(l.isCircleMarker || l.isHeatLayer))
    if 0 < pts.length then
      let newView := match hd.center with
        | some c => some (c, match hd.zoom with
          | some z => if z ≠ 0 then z else 7
          | none => 7)
        | none => m.view
      some ⟨cleared ++ [Layer.heat pts], newView⟩
    else some ⟨cleared, m.view⟩

/-- The `L.CircleMarker` layers currently on the widget. -/
def circleLayers : Option LeafletMap → List Layer
  | none => []
  | some m => m.layers.filter (fun l => l.isCircleMarker)

/-- The overlay (`L.CircleMarker` or `L.HeatLayer`) layers currently on the
widget. -/
def overlayLayers : Option LeafletMap → List Layer
  | none => []
  | some m => m.layers.filter (fun l => l.isCircleMarker || l.isHeatLayer)

/-- The map right after initialization: only the OpenStreetMap tile layer. -/
def mapWithTile : LeafletMap := ⟨[Layer.tile], none⟩

/-- A buildings payload carrying one marker. -/
def payloadOneMarker : MapData := ⟨some [⟨1, 2, "red", "p"⟩], none, none⟩

/-- A buildings payload whose `markers` field is absent (falsy). -/
def payloadNoMarkers : MapData := ⟨none, none, none⟩

/-- The two map UI controls read by `showBuildingsView`: the value of
`#map-density` and of `#map-type-filter`; `none` models an absent element
(`document.getElementById(...)` returning null, so `?.value` is
undefined). -/
structure MapControls where
  mapDensity : Option String
  mapTypeFilter : Option String
deriving DecidableEq

/-- Reading of the map-density slider with its fallback of 100: an absent
element or an empty (falsy) value falls back to 100, interpolated into the
URL as the string `100`. -/
def densityParam (c : MapControls) : String :=
  match c.mapDensity with
  | none => "100"
  | some v => if v = "" then "100" else v

/-- Reading of the map-type-filter dropdown with its fallback `all`. -/
def typeParam (c : MapControls) : String :=
  match c.mapTypeFilter with
  | none => "all"
  | some v => if v = "" then "all" else v

/-- The template string of the buildings fetch:
the URL of `/api/map/buildings` with both query parameters. -/
def buildingsUrl (c : MapControls) : String :=
  "/api/map/buildings?density=" ++ densityParam c ++ "&type=" ++ typeParam c

/-- The `{success, map_data}` envelope returned by `/api/map/buildings`. -/
structure BuildingsEnvelope where
  success : Bool
  map_data : MapData

/-- Embedding of `DashboardMaps.showBuildingsView()`: build the URL from the controls,
fetch, parse the body, and render only when the envelope has
`success == true`. A rejected fetch or a JSON parse failure is caught by
the surrounding `try` and logged with `console.error`; the HTTP status is
never inspected; a `success == false` envelope is silently ignored (no
`else` branch, no log). The previous map state is returned untouched on
every non-render path. -/
def showBuildingsView (c : MapControls) (st : Option LeafletMap)
    (resp : FetchResult BuildingsEnvelope) : Option LeafletMap × List TraceEvent :=
  match resp with
  | .networkError _ =>
    (st, [.fetchReq (buildingsUrl c), .consoleError "Erreur affichage bâtiments:"])
  | .response _ none =>
    (st, [.fetchReq (buildingsUrl c), .consoleError "Erreur affichage bâtiments:"])
  | .response _ (some env) =>
    if env.success then
      (renderBuildingsOnMap st env.map_data, [.fetchReq (buildingsUrl c), .rendered])
    else
      (st, [.fetchReq (buildingsUrl c)])

/-- Embedding of `DashboardMaps.updateMapDensity(value)`: write the slider value into
`#density-display` (first component) and re-run `showBuildingsView`, which
re-reads the controls. -/
def updateMapDensity (value : String) (c : MapControls) (st : Option LeafletMap)
    (resp : FetchResult BuildingsEnvelope) :
    String × (Option LeafletMap × List TraceEvent) :=
  (value, showBuildingsView c st resp)

end DashboardMaps

namespace DashboardCharts

/-- Opaque Plotly chart payload (the `{data, layout}` JSON of one chart). -/
abbrev ChartSpec := ℕ

/-- One chart mount element: `none` content means the placeholder markup,
`some spec` a rendered Plotly chart. -/
structure ChartElement where
  content : Option ChartSpec
deriving DecidableEq

/-- The chart mount points of the document, by element id; `none` models an
absent element. -/
def ChartDom := String → Option ChartElement

/-- Embedding of `DashboardData.renderPlotlyChart(elementId, chartData)`: bail out when
the mount element is absent, otherwise replace its content with the new
chart (`Plotly.newPlot`). -/
def renderPlotlyChart (dom : ChartDom) (elementId : String)
    (chartData : ChartSpec) : ChartDom :=
  match dom elementId with
  | none => dom
  | some _ => fun id => if id = elementId then some ⟨some chartData⟩ else dom id

/-- The `charts` payload of `/api/charts/consumption`; absent members are
falsy and skipped by `renderConsumptionCharts`. -/
structure ConsumptionCharts where
  detailed_consumption : Option ChartSpec
  hourly_patterns : Option ChartSpec
  consumption_heatmap : Option ChartSpec

/-- The `{success, charts}` envelope of `/api/charts/consumption`. -/
structure ChartsEnvelope where
  success : Bool
  charts : ConsumptionCharts

/-- The two chart UI controls read by `updateConsumptionCharts`. -/
structure ChartControls where
  timeRangeSelect : Option String
  buildingTypeSelect : Option String

/-- Reading of the time-range dropdown with its fallback `7d`. -/
def rangeParam (c : ChartControls) : String :=
  match c.timeRangeSelect with
  | none => "7d"
  | some v => if v = "" then "7d" else v

/-- Reading of the building-type dropdown with its fallback `all`. -/
def chartTypeParam (c : ChartControls) : String :=
  match c.buildingTypeSelect with
  | none => "all"
  | some v => if v = "" then "all" else v

/-- URL of the consumption charts fetch. -/
def consumptionUrl (c : ChartControls) : String :=
  "/api/charts/consumption?range=" ++ rangeParam c ++ "&type=" ++ chartTypeParam c

/-- Embedding of `DashboardData.renderConsumptionCharts(charts)`: one `renderPlotlyChart`
per present member, in source order. -/
def renderConsumptionCharts (dom : ChartDom) (charts : ConsumptionCharts) : ChartDom :=
  let d1 := match charts.detailed_consumption with
    | some sp => renderPlotlyChart dom "detailed-consumption-chart" sp
    | none => dom
  let d2 := match charts.hourly_patterns with
    | some sp => renderPlotlyChart d1 "hourly-patterns-chart" sp
    | none => d1
  match charts.consumption_heatmap with
  | some sp => renderPlotlyChart d2 "consumption-heatmap" sp
  | none => d2

/-- Embedding of `DashboardData.updateConsumptionCharts()` (dashboard-data.js): same
fetch/envelope discipline as `showBuildingsView`, with context string
`Erreur mise à jour graphiques:` and the charts renderer. -/
def updateConsumptionCharts (c : ChartControls) (dom : ChartDom)
    (resp : FetchResult ChartsEnvelope) : ChartDom × List TraceEvent :=
  match resp with
  | .networkError _ =>
    (dom, [.fetchReq (consumptionUrl c), .consoleError "Erreur mise à jour graphiques:"])
  | .response _ none =>
    (dom, [.fetchReq (consumptionUrl c), .consoleError "Erreur mise à jour graphiques:"])
  | .response _ (some env) =>
    if env.success then
      (renderConsumptionCharts dom env.charts, [.fetchReq (consumptionUrl c), .rendered])
    else
      (dom, [.fetchReq (consumptionUrl c)])

end DashboardCharts

namespace Dashboard

/-- The standard function-valued members of `Object.prototype` that a plain
object literal inherits: property lookup on the modules table falls through
to these when no own property shadows them. They are ordinary writable data
properties, so an assignment under one of these names shadows them with an
own property. The legacy annex-B accessor properties of browsers (the
underscore-named getter and setter pairs and the prototype accessor) are
outside this model. -/
def objectProtoMembers : List String :=
  ["constructor", "hasOwnProperty", "isPrototypeOf", "propertyIsEnumerable",
   "toLocaleString", "toString", "valueOf"]

/-- An own-property value of the `Dashboard.modules` object: a registered
module handle, or the `null` placeholder the object literal starts with. -/
inductive ModuleSlot (M : Type) where
  | handle (m : M)
  | nullVal
deriving DecidableEq

/-- What the property read inside `Dashboard.getModule(name)` evaluates to:
a registered handle, the `null` placeholder, a function inherited from
`Object.prototype`, or `undefined`. In the claim, `nullVal` and `undef` are
the absent values; `handle` and `protoFn` are not. -/
inductive ModuleLookup (M : Type) where
  | handle (m : M)
  | nullVal
  | protoFn (name : String)
  | undef
deriving DecidableEq

/-- Absent values (null or undefined) in the sense of the claim. -/
def ModuleLookup.isAbsent {M : Type} : ModuleLookup M → Bool
  | .nullVal => true
  | .undef => true
  | _ => false

/-- The own properties of the `Dashboard.modules` object; `M` is the type of
module handles. Property reads fall back to the prototype, see
`getModule`. -/
def Modules (M : Type) := String → Option (ModuleSlot M)

/-- The object literal initializing `Dashboard.modules` in dashboard-core.js:
five own properties (`charts`, `maps`, `chat`, `data`, `ui`), all null. -/
def modulesInit (M : Type) : Modules M := fun n =>
  if n = "charts" ∨ n = "maps" ∨ n = "chat" ∨ n = "data" ∨ n = "ui" then
    some ModuleSlot.nullVal
  else none

/-- Embedding of `Dashboard.registerModule(name, module)`: the assignment
creates or overwrites an own property — never an error — and shadows a
prototype member of the same name, since the modelled members are writable
data properties. -/
def registerModule {M : Type} (modules : Modules M) (name : String)
    (module : M) : Modules M :=
  fun n => if n = name then some (ModuleSlot.handle module) else modules n

/-- Embedding of `Dashboard.getModule(name)`: a plain property read on the
object, which walks the prototype chain — an own property wins, otherwise a
member of `Object.prototype` yields the inherited function, otherwise the
read is `undefined`. It never throws. -/
def getModule {M : Type} (modules : Modules M) (name : String) : ModuleLookup M :=
  match modules name with
  | some (ModuleSlot.handle m) => ModuleLookup.handle m
  | some ModuleSlot.nullVal => ModuleLookup.nullVal
  | none =>
    if name ∈ objectProtoMembers then ModuleLookup.protoFn name else ModuleLookup.undef

/-- A sequence of registrations applied in order. -/
def registerAll {M : Type} (init : Modules M) : List (String × M) → Modules M
  | [] => init
  | (n, m) :: rest => registerAll (registerModule init n m) rest

end Dashboard

namespace DashboardData

/-- A value held in an imported settings JSON: a boolean or a string (the
two shapes the exporter writes). -/
inductive SettingValue where
  | b (v : Bool)
  | s (v : String)
deriving DecidableEq

/-- JavaScript truthiness coercion applied by `element.checked = value`. -/
def SettingValue.toBool : SettingValue → Bool
  | .b v => v
  | .s v => !(v = "")

/-- String coercion applied by `element.value = value`. -/
def SettingValue.toValueString : SettingValue → String
  | .s v => v
  | .b v => if v then "true" else "false"

/-- A form control: a checkbox-typed element or a value-bearing
input/select. -/
inductive Control where
  | checkbox (checked : Bool)
  | input (value : String)
deriving DecidableEq

/-- The parsed settings object: the `theme` member and the other members
looked up by setting key; `none` models a key that is `undefined` (absent
from the imported JSON). -/
structure Settings where
  theme : Option String
  values : String → Option SettingValue

/-- The DOM touched by `applySettings`: the `data-theme` attribute of the
document element, which theme radio is checked, the radio values present in
the document, and the form controls by element id (`none` = absent). -/
structure SettingsDom where
  dataTheme : String
  themeRadioChecked : Option String
  themeRadios : List String
  elems : String → Option Control

/-- The `elementId → settingKey` table of `applySettings`
(dashboard-data.js). -/
def mappings : List (String × String) :=
  [("language-select", "language"),
   ("animations-toggle", "animations"),
   ("sounds-toggle", "sounds"),
   ("chart-resolution", "chartResolution"),
   ("max-points-range", "maxPoints"),
   ("auto-refresh-toggle", "autoRefresh"),
   ("ollama-url", "ollamaUrl"),
   ("default-model", "defaultModel"),
   ("ollama-timeout", "ollamaTimeout"),
   ("cache-duration", "cacheDuration"),
   ("export-folder", "exportFolder")]

/-- The per-control assignment: a checkbox element receives the checked
boolean, any other element receives the value string. -/
def assignControl : Control → SettingValue → Control
  | .checkbox _, v => .checkbox v.toBool
  | .input _, v => .input v.toValueString

/-- Body of the `Object.entries(mappings).forEach` callback: update the
control only when the element exists and the setting key is defined. -/
def applyOne (settings : Settings) (d : SettingsDom) (p : String × String) :
    SettingsDom :=
  match d.elems p.1, settings.values p.2 with
  | some ctrl, some v =>
    { d with elems := fun id => if id = p.1 then some (assignControl ctrl v) else d.elems id }
  | some _, none => d
  | none, _ => d

/-- The theme block of `applySettings`: `if (settings.theme)` (truthy), set
the `data-theme` attribute and check the matching radio when present. -/
def applyTheme (settings : Settings) (d : SettingsDom) : SettingsDom :=
  match settings.theme with
  | some t =>
    if t = "" then d
    else
      { d with dataTheme := t,
               themeRadioChecked := if t ∈ d.themeRadios then some t else d.themeRadioChecked }
  | none => d

/-- `DashboardData.applySettings(settings)` from dashboard-data.js: the
theme block, then one `applyOne` per mapping entry in order. -/
def applySettings (settings : Settings) (d : SettingsDom) : SettingsDom :=
  mappings.foldl (applyOne settings) (applyTheme settings d)

/-- A document state for the witness: theme `dark`, one language control. -/
def settingsDom0 : SettingsDom :=
  ⟨"dark", none, ["dark", "light"],
   fun id => if id = "language-select" then some (.input "fr") else none⟩

end DashboardData

lemma jsRound_999 : jsRound 1 999 = 9990 := by
  rw [jsRound]; norm_num [abs_of_nonneg]; rfl

lemma jsRound_three_halves : jsRound 1 (3 / 2) = 15 := by
  rw [jsRound]; norm_num [abs_of_nonneg]; rfl

lemma jsRound_five_halves : jsRound 1 (5 / 2) = 25 := by
  rw [jsRound]; norm_num [abs_of_nonneg]; rfl

lemma jsRound_one : jsRound 1 1 = 10 := by
  rw [jsRound]; norm_num [abs_of_nonneg]; rfl

lemma jsRound_hundred : jsRound 1 100 = 1000 := by
  rw [jsRound]; norm_num [abs_of_nonneg]; rfl

namespace apiClient

lemma requestLoop_cons_failure {α : Type} (mR rc s : ℕ) (msg : String)
    (rest : List (FetchOutcome α)) :
    requestLoop mR rc s (.failure msg :: rest) =
      if mR < rc + 1 then
        ⟨.error ("Échec après " ++ toString mR ++ " tentatives: " ++ msg), rc + 1, []⟩
      else
        ⟨(requestLoop mR (rc + 1) (rc + 1) rest).outcome,
         (requestLoop mR (rc + 1) (rc + 1) rest).retryCountState,
         2 ^ (rc + 1) * 1000 :: (requestLoop mR (rc + 1) (rc + 1) rest).delays⟩ := rfl

lemma requestLoop_ok {α : Type} (d : α) (maxRetries : ℕ) (msgs : List String) :
    ∀ rc s, rc + msgs.length ≤ maxRetries →
      requestLoop maxRetries rc s (msgs.map FetchOutcome.failure ++ [FetchOutcome.success d]) =
        ⟨.ok d, 0, (List.range msgs.length).map (fun i => 2 ^ (rc + i + 1) * 1000)⟩ := by
  induction msgs with
  | nil => intro rc s _; simp [requestLoop]
  | cons m ms ih =>
    intro rc s h
    simp only [List.length_cons] at h
    have h1 : ¬ maxRetries < rc + 1 := by omega
    have h2 : rc + 1 + ms.length ≤ maxRetries := by omega
    rw [List.map_cons, List.cons_append, requestLoop_cons_failure, if_neg h1,
      ih (rc + 1) (rc + 1) h2]
    simp only [RequestResult.mk.injEq, List.length_cons, true_and]
    simp only [List.range_succ_eq_map, List.map_cons, List.map_map, List.cons.injEq, add_zero]
    refine ⟨trivial, ?_⟩
    apply List.map_congr_left
    intro i _
    have e : rc + 1 + i + 1 = rc + (i + 1) + 1 := by omega
    simp only [Function.comp_apply, e]

/-- C1: a request whose fetch fails `n ≤ 3` times and then succeeds resolves
with the parsed response and resets `dashboardState.retryCount` to 0, with the
delay before retry number `i+1` equal to `2^(i+1) * 1000` ms (the exponent is
the number of failures so far); a request whose fetch fails 4 times with
`maxRetries = 3` rejects with the single aggregated error message. -/
theorem request_retry_backoff {α : Type} (d : α) (msgs : List String)
    (h : msgs.length ≤ 3) (m1 m2 m3 m4 : String) :
    request 3 (msgs.map FetchOutcome.failure ++ [FetchOutcome.success d]) =
      ⟨.ok d, 0, (List.range msgs.length).map (fun i => 2 ^ (i + 1) * 1000)⟩ ∧
    request 3 ([.failure m1, .failure m2, .failure m3, .failure m4] :
        List (FetchOutcome α)) =
      ⟨.error ("Échec après 3 tentatives: " ++ m4), 4, [2000, 4000, 8000]⟩ := by
  constructor
  · have hmain := requestLoop_ok d 3 msgs 0 0 (by omega)
    simpa [request] using hmain
  · rw [request, requestLoop_cons_failure, if_neg (by omega), requestLoop_cons_failure,
      if_neg (by omega), requestLoop_cons_failure, if_neg (by omega), requestLoop_cons_failure,
      if_pos (by omega)]
    rw [show ("Échec après " ++ toString (3 : ℕ) ++ " tentatives: " : String) =
      "Échec après 3 tentatives: " from rfl]
    norm_num

/-- Witness for C1: two failures then success at `maxRetries = 3` resolves
with the payload, retry counter 0 and backoff delays 2000 ms then 4000 ms. -/
theorem request_retry_backoff_witness :
    request 3 [FetchOutcome.failure "a", FetchOutcome.failure "b",
      FetchOutcome.success (7 : ℕ)] = ⟨.ok 7, 0, [2000, 4000]⟩ := by
  have h := (request_retry_backoff (7 : ℕ) ["a", "b"] (by norm_num) "x" "x" "x" "x").1
  simpa [List.range_succ] using h

end apiClient

namespace Dashboard

lemma loadStaticContent_spec (t : TabId) (s : TabDom) :
    ((s t).present = true → (s t).loaded = false →
      (loadStaticContent t s).2 = [.contentLoad t] ∧
      ((loadStaticContent t s).1 t).loaded = true) ∧
    ((s t).loaded = true → (loadStaticContent t s).2 = []) ∧
    (∀ u : String, TabEffect.fetch u ∉ (loadStaticContent t s).2) ∧
    (∀ t' : TabId, (s t').loaded = true → ((loadStaticContent t s).1 t').loaded = true) := by
  refine ⟨?_, ?_, ?_, ?_⟩
  · intro hp hl
    simp [loadStaticContent, hp, hl, setTab]
  · intro hl
    simp [loadStaticContent, hl]
  · intro u
    rw [loadStaticContent]
    split
    · simp
    · simp [setTab]
  · intro t' hl'
    rw [loadStaticContent]
    split
    · exact hl'
    · simp only [setTab]
      by_cases he : t' = t
      · simp [he]
      · simp [he, hl']

/-- C2 (amended): for every tab other than `overview`, activating it while
its pane is present and unflagged performs exactly one static content-load
(which sets the flag); activating any tab whose flag is set performs zero
loads; no tab activation ever performs a network fetch; and no tab
activation ever clears a loaded-flag (the flags are the only `dataset.loaded`
writes in the sources, and they are monotone). The `overview` arm of
`loadTabContent` loads nothing and sets no flag. -/
theorem loadTabContent_once (tab : TabId) (s : TabDom) :
    (tab ≠ .overview → (s tab).present = true → (s tab).loaded = false →
      (loadTabContent tab s).2 = [.contentLoad tab] ∧
      ((loadTabContent tab s).1 tab).loaded = true) ∧
    ((s tab).loaded = true → (loadTabContent tab s).2 = []) ∧
    (∀ u : String, TabEffect.fetch u ∉ (loadTabContent tab s).2) ∧
    (∀ t' : TabId, (s t').loaded = true → ((loadTabContent tab s).1 t').loaded = true) := by
  cases tab with
  | overview =>
    exact ⟨fun h => absurd rfl h, fun _ => rfl, fun u => by simp [loadTabContent],
      fun t' hl' => hl'⟩
  | consumption =>
    obtain ⟨h1, h2, h3, h4⟩ := loadStaticContent_spec TabId.consumption s
    exact ⟨fun _ => h1, h2, h3, h4⟩
  | buildings =>
    obtain ⟨h1, h2, h3, h4⟩ := loadStaticContent_spec TabId.buildings s
    exact ⟨fun _ => h1, h2, h3, h4⟩
  | analysis =>
    obtain ⟨h1, h2, h3, h4⟩ := loadStaticContent_spec TabId.analysis s
    exact ⟨fun _ => h1, h2, h3, h4⟩
  | data =>
    obtain ⟨h1, h2, h3, h4⟩ := loadStaticContent_spec TabId.data s
    exact ⟨fun _ => h1, h2, h3, h4⟩
  | settings =>
    obtain ⟨h1, h2, h3, h4⟩ := loadStaticContent_spec TabId.settings s
    exact ⟨fun _ => h1, h2, h3, h4⟩

/-- C2 counterexample: the claim quantifies over every tab including
`overview`, but activating `overview` with its pane present and unflagged
triggers zero content-loads and leaves the flag unset — not "exactly one
content-load which then sets the flag". -/
theorem loadTabContent_overview_counterexample :
    (tabDomAllFresh TabId.overview).present = true ∧
    (tabDomAllFresh TabId.overview).loaded = false ∧
    (loadTabContent TabId.overview tabDomAllFresh).2 = [] ∧
    ((loadTabContent TabId.overview tabDomAllFresh).1 TabId.overview).loaded = false :=
  ⟨rfl, rfl, rfl, rfl⟩

/-- Witness for C2: activating the fresh `consumption` tab performs exactly
one content-load and sets its flag. -/
theorem loadTabContent_once_witness :
    (loadTabContent TabId.consumption tabDomAllFresh).2 =
      [TabEffect.contentLoad TabId.consumption] ∧
    ((loadTabContent TabId.consumption tabDomAllFresh).1 TabId.consumption).loaded = true :=
  (loadTabContent_once TabId.consumption tabDomAllFresh).1 (by decide) rfl rfl

end Dashboard

namespace DashboardMaps

lemma circleLayers_renderBuildings (m : LeafletMap) (md : MapData)
    (ms : List MarkerData) (h : md.markers = some ms) :
    circleLayers (renderBuildingsOnMap (some m) md) =
      ms.map (fun d => Layer.circleMarker d.lat d.lng d.color d.popup) := by
  obtain ⟨mks, c, z⟩ := md
  simp only at h
  subst h
  simp only [renderBuildingsOnMap]
  simp only [circleLayers, List.filter_append, List.filter_filter]
  have h1 : ∀ l : Layer, (l.isCircleMarker && !l.isCircleMarker) = false := by
    intro l; cases l.isCircleMarker <;> rfl
  simp only [h1, List.filter_false, List.nil_append]
  apply List.filter_eq_self.mpr
  intro a ha
  obtain ⟨d, _, rfl⟩ := List.mem_map.mp ha
  rfl

lemma renderBuildings_isSome (m : LeafletMap) (p : MapData) :
    ∃ m', renderBuildingsOnMap (some m) p = some m' := by
  obtain ⟨mks, c, z⟩ := p
  cases mks with
  | none => exact ⟨m, rfl⟩
  | some ms => exact ⟨_, rfl⟩

lemma overlayLayers_renderHeatmap (m : LeafletMap) (hd : HeatmapData)
    (pts : List (ℚ × ℚ × ℚ)) (h : hd.heatmap_points = some pts) :
    overlayLayers (renderConsumptionHeatmap (some m) hd) =
      if 0 < pts.length then [Layer.heat pts] else [] := by
  obtain ⟨hps, c, z⟩ := hd
  simp only at h
  subst h
  simp only [renderConsumptionHeatmap]
  have h1 : ∀ l : Layer,
      ((l.isCircleMarker || l.isHeatLayer) && !(l.isCircleMarker || l.isHeatLayer)) = false := by
    intro l; cases hcm : (l.isCircleMarker || l.isHeatLayer) <;> simp [hcm]
  by_cases hp : 0 < pts.length
  · simp only [hp, if_true, overlayLayers, List.filter_append, List.filter_filter, h1,
      List.filter_false, List.nil_append]
    rfl
  · simp only [hp, if_false, overlayLayers, List.filter_filter, h1, List.filter_false]

lemma renderHeatmap_isSome (m : LeafletMap) (hd : HeatmapData) :
    ∃ m', renderConsumptionHeatmap (some m) hd = some m' := by
  obtain ⟨hps, c, z⟩ := hd
  cases hps with
  | none => exact ⟨m, rfl⟩
  | some pts =>
    simp only [renderConsumptionHeatmap]
    by_cases h : 0 < pts.length
    · simp only [h, if_true]
      exact ⟨_, rfl⟩
    · simp only [h, if_false]
      exact ⟨_, rfl⟩

/-- C3 (amended): for any two buildings payloads whose `markers` field is
present, rendering one after the other leaves exactly the circle markers of
the second payload on the widget, whatever the first payload and whatever
markers were on the map before; likewise for two heatmap payloads whose
`heatmap_points` field is present, the overlay layers after the second
render are exactly the (single) heat layer of the second payload, or none
when its point list is empty. A payload whose markers/points field is
absent makes the renderer return without clearing (see the
counterexample). -/
theorem render_second_call_wins (m : LeafletMap) (p1 p2 : MapData)
    (ms2 : List MarkerData) (hp : p2.markers = some ms2)
    (hd1 hd2 : HeatmapData) (pts2 : List (ℚ × ℚ × ℚ))
    (hq : hd2.heatmap_points = some pts2) :
    circleLayers (renderBuildingsOnMap (renderBuildingsOnMap (some m) p1) p2) =
      ms2.map (fun d => Layer.circleMarker d.lat d.lng d.color d.popup) ∧
    overlayLayers (renderConsumptionHeatmap (renderConsumptionHeatmap (some m) hd1) hd2) =
      (if 0 < pts2.length then [Layer.heat pts2] else []) := by
  constructor
  · obtain ⟨m', e⟩ := renderBuildings_isSome m p1
    rw [e]
    exact circleLayers_renderBuildings m' p2 ms2 hp
  · obtain ⟨m', e⟩ := renderHeatmap_isSome m hd1
    rw [e]
    exact overlayLayers_renderHeatmap m' hd2 pts2 hq

/-- C3 counterexample: the claim quantifies over any two payloads, but when
the second payload has no `markers` field the renderer returns before
clearing, so the marker added by the first call is still on the widget —
not "exactly the layers from the second call". -/
theorem render_second_call_wins_counterexample :
    payloadNoMarkers.markers = none ∧
    circleLayers (renderBuildingsOnMap
        (renderBuildingsOnMap (some mapWithTile) payloadOneMarker) payloadNoMarkers) =
      [Layer.circleMarker 1 2 "red" "p"] :=
  ⟨rfl, rfl⟩

/-- Witness for C3: re-rendering with a second one-marker payload leaves
exactly that marker, and a second heatmap render leaves exactly its heat
layer. -/
theorem render_second_call_wins_witness :
    circleLayers (renderBuildingsOnMap
        (renderBuildingsOnMap (some mapWithTile) payloadOneMarker)
        ⟨some [⟨3, 4, "blue", "q"⟩], none, none⟩) =
      [Layer.circleMarker 3 4 "blue" "q"] ∧
    overlayLayers (renderConsumptionHeatmap
        (renderConsumptionHeatmap (some mapWithTile) ⟨some [(1, 2, 5)], none, none⟩)
        ⟨some [(6, 7, 8)], none, none⟩) = [Layer.heat [(6, 7, 8)]] := by
  have h := render_second_call_wins mapWithTile payloadOneMarker
    ⟨some [⟨3, 4, "blue", "q"⟩], none, none⟩ [⟨3, 4, "blue", "q"⟩] rfl
    ⟨some [(1, 2, 5)], none, none⟩ ⟨some [(6, 7, 8)], none, none⟩ [(6, 7, 8)] rfl
  simpa using h

end DashboardMaps

open DashboardMaps DashboardCharts in

/-- C4 (amended): for both `showBuildingsView` and `updateConsumptionCharts`,
a rejected fetch or an unparsable body is caught locally, logged via
`console.error`, and leaves the previous state untouched with no render; an
envelope with `success == false` also keeps the stale state and renders
nothing, but is silently ignored without logging; the HTTP status code is
never examined, so any response whose parsed body has `success == true`
is rendered regardless of status. -/
theorem fetch_error_handling (c : MapControls) (st : Option LeafletMap)
    (cc : ChartControls) (dom : ChartDom) :
    (∀ msg, showBuildingsView c st (.networkError msg) =
      (st, [.fetchReq (buildingsUrl c), .consoleError "Erreur affichage bâtiments:"])) ∧
    (∀ status, showBuildingsView c st (.response status none) =
      (st, [.fetchReq (buildingsUrl c), .consoleError "Erreur affichage bâtiments:"])) ∧
    (∀ status env, env.success = false →
      showBuildingsView c st (.response status (some env)) =
        (st, [.fetchReq (buildingsUrl c)])) ∧
    (∀ status env, env.success = true →
      (showBuildingsView c st (.response status (some env))).2 =
        [.fetchReq (buildingsUrl c), .rendered]) ∧
    (∀ msg, updateConsumptionCharts cc dom (.networkError msg) =
      (dom, [.fetchReq (consumptionUrl cc), .consoleError "Erreur mise à jour graphiques:"])) ∧
    (∀ status, updateConsumptionCharts cc dom (.response status none) =
      (dom, [.fetchReq (consumptionUrl cc), .consoleError "Erreur mise à jour graphiques:"])) ∧
    (∀ status env, env.success = false →
      updateConsumptionCharts cc dom (.response status (some env)) =
        (dom, [.fetchReq (consumptionUrl cc)])) ∧
    (∀ status env, env.success = true →
      (updateConsumptionCharts cc dom (.response status (some env))).2 =
        [.fetchReq (consumptionUrl cc), .rendered]) := by
  refine ⟨fun msg => rfl, fun status => rfl, ?_, ?_, fun msg => rfl, fun status => rfl, ?_, ?_⟩
  · intro status env hs
    simp [showBuildingsView, hs]
  · intro status env hs
    simp [showBuildingsView, hs]
  · intro status env hs
    simp [updateConsumptionCharts, hs]
  · intro status env hs
    simp [updateConsumptionCharts, hs]

open DashboardMaps in

/-- C4 counterexample: a response with non-success HTTP status 500 whose
JSON body has `success == true` still invokes the renderer (the claim says
no renderer may be invoked on a non-success status), and a `success ==
false` envelope produces no `console.error` (the claim says it logs like a
network failure). -/
theorem fetch_error_handling_counterexample :
    (showBuildingsView ⟨none, none⟩ (some mapWithTile)
        (.response 500 (some ⟨true, payloadOneMarker⟩))).2 =
      [.fetchReq "/api/map/buildings?density=100&type=all", .rendered] ∧
    TraceEvent.consoleError "Erreur affichage bâtiments:" ∉
      (showBuildingsView ⟨none, none⟩ (some mapWithTile)
        (.response 200 (some ⟨false, payloadOneMarker⟩))).2 := by
  constructor
  · rfl
  · decide

open DashboardMaps in

/-- Witness for C4: a `success == false` envelope at status 200 keeps the
stale map and produces only the fetch event. -/
theorem fetch_error_handling_witness :
    showBuildingsView ⟨none, none⟩ (some mapWithTile)
        (.response 200 (some ⟨false, payloadNoMarkers⟩)) =
      (some mapWithTile, [.fetchReq "/api/map/buildings?density=100&type=all"]) := by
  have h := (fetch_error_handling ⟨none, none⟩ (some mapWithTile)
    ⟨none, none⟩ (fun _ => none)).2.2.1 200 ⟨false, payloadNoMarkers⟩ rfl
  rw [h]
  rfl

namespace DashboardMaps

lemma buildingsUrl_fifty (t : String) (ht : ¬ t = "") :
    buildingsUrl ⟨some "50", some t⟩ = "/api/map/buildings?density=50&type=" ++ t := by
  simp only [buildingsUrl, densityParam, typeParam, if_neg ht,
    if_neg (show ¬("50" : String) = "" by decide)]
  rfl

lemma buildingsUrl_defaults : buildingsUrl ⟨none, none⟩ =
    "/api/map/buildings?density=100&type=all" := rfl

/-- C5: with the density slider at 50 and the type filter still at its
previously selected value `t`, the next buildings fetch (also when entered
through `updateMapDensity`) goes to `/api/map/buildings?density=50&type=t`;
with both controls absent the URL uses the documented defaults, density 100
and type `all`. -/
theorem buildings_fetch_url (t : String) (ht : ¬ t = "") (st : Option LeafletMap)
    (resp : FetchResult BuildingsEnvelope) :
    (showBuildingsView ⟨some "50", some t⟩ st resp).2.head? =
      some (.fetchReq ("/api/map/buildings?density=50&type=" ++ t)) ∧
    (updateMapDensity "50" ⟨some "50", some t⟩ st resp).2.2.head? =
      some (.fetchReq ("/api/map/buildings?density=50&type=" ++ t)) ∧
    (showBuildingsView ⟨none, none⟩ st resp).2.head? =
      some (.fetchReq "/api/map/buildings?density=100&type=all") := by
  have hu := buildingsUrl_fifty t ht
  have hhead : ∀ (c : MapControls) (st' : Option LeafletMap),
      (showBuildingsView c st' resp).2.head? = some (.fetchReq (buildingsUrl c)) := by
    intro c st'
    cases resp with
    | networkError msg => rfl
    | response status body =>
      cases body with
      | none => rfl
      | some env =>
        by_cases hs : env.success <;> simp [showBuildingsView, hs]
  refine ⟨?_, ?_, ?_⟩
  · rw [hhead, hu]
  · rw [updateMapDensity, hhead, hu]
  · rw [hhead, buildingsUrl_defaults]

/-- Witness for C5: concrete type filter `commercial`. -/
theorem buildings_fetch_url_witness :
    (showBuildingsView ⟨some "50", some "commercial"⟩ (some mapWithTile)
        (.networkError "offline")).2.head? =
      some (.fetchReq "/api/map/buildings?density=50&type=commercial") := by
  have h := (buildings_fetch_url "commercial" (by decide) (some mapWithTile)
    (.networkError "offline")).1
  rw [h]
  rfl

end DashboardMaps

namespace Dashboard

lemma registerAll_not_mem {M : Type} (regs : List (String × M)) :
    ∀ (init : Modules M) (name : String), name ∉ regs.map Prod.fst →
      registerAll init regs name = init name := by
  induction regs with
  | nil => intro init name _; rfl
  | cons p rest ih =>
    intro init name h
    obtain ⟨n, m⟩ := p
    simp only [List.map_cons, List.mem_cons, not_or] at h
    rw [registerAll, ih _ _ h.2, registerModule, if_neg h.1]

/-- C6 counterexample: with no registration ever made, looking up the
never-registered name `toString` on the fresh modules object returns the
function inherited from `Object.prototype` through the prototype chain — a
non-absent value — falsifying the claim that every never-registered name
reads back as null/undefined. -/
theorem getModule_toString_counterexample :
    getModule (modulesInit ℕ) "toString" = ModuleLookup.protoFn "toString" ∧
    (getModule (modulesInit ℕ) "toString").isAbsent = false := by
  constructor <;> decide

/-- C6 (amended): registering twice under the same name raises no error
(the operations are total) and the second handle wins on a later lookup,
for every name — assignment shadows even a prototype member. Looking up a
name that was never registered (any registration history avoiding that
name, starting from the initial object literal) never throws and yields:
null for the five names the literal pre-fills, the inherited
`Object.prototype` function when the name is one of its members, and
undefined otherwise — so the result is an absent value exactly when the
name is not an `Object.prototype` member. -/
theorem registerModule_last_write_wins {M : Type} (modules : Modules M)
    (name : String) (m1 m2 : M) (regs : List (String × M))
    (h : name ∉ regs.map Prod.fst) :
    getModule (registerModule (registerModule modules name m1) name m2) name =
      ModuleLookup.handle m2 ∧
    getModule (registerAll (modulesInit M) regs) name =
      (if name = "charts" ∨ name = "maps" ∨ name = "chat" ∨ name = "data" ∨ name = "ui" then
        ModuleLookup.nullVal
      else if name ∈ objectProtoMembers then ModuleLookup.protoFn name
      else ModuleLookup.undef) ∧
    ((getModule (registerAll (modulesInit M) regs) name).isAbsent = true ↔
      name ∉ objectProtoMembers) := by
  have e : registerAll (modulesInit M) regs name = modulesInit M name :=
    registerAll_not_mem regs (modulesInit M) name h
  have key : getModule (registerAll (modulesInit M) regs) name =
      (if name = "charts" ∨ name = "maps" ∨ name = "chat" ∨ name = "data" ∨ name = "ui" then
        ModuleLookup.nullVal
      else if name ∈ objectProtoMembers then ModuleLookup.protoFn name
      else ModuleLookup.undef) := by
    by_cases hc : name = "charts" ∨ name = "maps" ∨ name = "chat" ∨ name = "data" ∨ name = "ui"
    · simp [getModule, e, modulesInit, hc]
    · by_cases hm : name ∈ objectProtoMembers
      · simp [getModule, e, modulesInit, hc, hm]
      · simp [getModule, e, modulesInit, hc, hm]
  refine ⟨by simp [getModule, registerModule], key, ?_⟩
  rw [key]
  by_cases hc : name = "charts" ∨ name = "maps" ∨ name = "chat" ∨ name = "data" ∨ name = "ui"
  · have hnm : name ∉ objectProtoMembers := by
      rcases hc with h1 | h1 | h1 | h1 | h1 <;> subst h1 <;> decide
    simp [hc, hnm, ModuleLookup.isAbsent]
  · by_cases hm : name ∈ objectProtoMembers <;>
      simp [hc, hm, ModuleLookup.isAbsent]

/-- Witness for C6: overwriting `charts` twice yields the second handle;
after one unrelated registration the never-registered non-prototype name
`heatmap` reads back as undefined, an absent value. -/
theorem registerModule_last_write_wins_witness :
    getModule (registerModule (registerModule (modulesInit ℕ) "charts" 1) "charts" 2)
      "charts" = ModuleLookup.handle 2 ∧
    getModule (registerAll (modulesInit ℕ) [("maps", 5)]) "heatmap" =
      ModuleLookup.undef := by
  have h := registerModule_last_write_wins (modulesInit ℕ) "heatmap" 1 2 [("maps", 5)]
    (by decide)
  have h2 := registerModule_last_write_wins (modulesInit ℕ) "charts" 1 2 [("maps", 5)]
    (by decide)
  refine ⟨h2.1, ?_⟩
  rw [h.2.1]
  decide

end Dashboard

namespace DashboardData

lemma applyOne_dataTheme (settings : Settings) (d : SettingsDom) (p : String × String) :
    (applyOne settings d p).dataTheme = d.dataTheme ∧
    (applyOne settings d p).themeRadioChecked = d.themeRadioChecked := by
  rw [applyOne]
  cases d.elems p.1 <;> cases settings.values p.2 <;> exact ⟨rfl, rfl⟩

lemma foldl_applyOne_theme (settings : Settings) (l : List (String × String)) :
    ∀ d : SettingsDom,
      (l.foldl (applyOne settings) d).dataTheme = d.dataTheme ∧
      (l.foldl (applyOne settings) d).themeRadioChecked = d.themeRadioChecked := by
  induction l with
  | nil => intro d; exact ⟨rfl, rfl⟩
  | cons p rest ih =>
    intro d
    rw [List.foldl_cons]
    obtain ⟨h1, h2⟩ := ih (applyOne settings d p)
    obtain ⟨g1, g2⟩ := applyOne_dataTheme settings d p
    exact ⟨h1.trans g1, h2.trans g2⟩

lemma foldl_applyOne_elems (settings : Settings) (l : List (String × String)) :
    ∀ (d : SettingsDom) (id : String),
      (∀ p ∈ l, p.1 ≠ id ∨ settings.values p.2 = none) →
      (l.foldl (applyOne settings) d).elems id = d.elems id := by
  induction l with
  | nil => intro d id _; rfl
  | cons p rest ih =>
    intro d id h
    rw [List.foldl_cons, ih _ id (fun q hq => h q (List.mem_cons_of_mem _ hq))]
    have hp := h p (List.mem_cons_self _ _)
    rw [applyOne]
    cases he : d.elems p.1 with
    | none => rfl
    | some ctrl =>
      cases hv : settings.values p.2 with
      | none => rfl
      | some v =>
        rcases hp with hne | hnone
        · exact if_neg (fun hid => hne (Eq.symm hid))
        · rw [hnone] at hv
          exact absurd hv (by simp)

lemma applyTheme_elems (settings : Settings) (d : SettingsDom) :
    (applyTheme settings d).elems = d.elems := by
  rw [applyTheme]
  cases settings.theme with
  | none => rfl
  | some t =>
    dsimp only
    by_cases ht : t = ""
    · rw [if_pos ht]
    · rw [if_neg ht]

/-- C8: applying an imported settings object leaves every control whose
setting key is absent (undefined) at its prior value, leaves every element
id outside the mapping table untouched, and leaves the theme state alone
when the `theme` key is absent; the operation is a total function (no
throw). Only controls whose key is present can be updated. -/
theorem applySettings_missing_keys (settings : Settings) (d : SettingsDom) :
    (∀ id key, (id, key) ∈ mappings → settings.values key = none →
      (applySettings settings d).elems id = d.elems id) ∧
    (∀ id, id ∉ mappings.map Prod.fst →
      (applySettings settings d).elems id = d.elems id) ∧
    (settings.theme = none →
      (applySettings settings d).dataTheme = d.dataTheme ∧
      (applySettings settings d).themeRadioChecked = d.themeRadioChecked) := by
  have huniq : ∀ p ∈ mappings, ∀ q ∈ mappings, p.1 = q.1 → p.2 = q.2 := by decide
  refine ⟨?_, ?_, ?_⟩
  · intro id key hmem hnone
    rw [applySettings, foldl_applyOne_elems settings mappings (applyTheme settings d) id ?side,
      applyTheme_elems settings d]
    case side =>
      intro p hp
      by_cases hid : p.1 = id
      · right
        have hkey : p.2 = key := huniq p hp (id, key) hmem hid
        rw [hkey]
        exact hnone
      · left
        exact hid
  · intro id hid
    rw [applySettings, foldl_applyOne_elems settings mappings (applyTheme settings d) id ?side2,
      applyTheme_elems settings d]
    case side2 =>
      intro p hp
      left
      intro hpid
      exact hid (hpid ▸ List.mem_map_of_mem Prod.fst hp)
  · intro hth
    have e : applyTheme settings d = d := by rw [applyTheme, hth]
    rw [applySettings, e]
    exact foldl_applyOne_theme settings mappings d

/-- Witness for C8: an imported object with every key absent leaves the
language control and the theme exactly as they were. -/
theorem applySettings_missing_keys_witness :
    (applySettings ⟨none, fun _ => none⟩ settingsDom0).elems "language-select" =
      settingsDom0.elems "language-select" ∧
    (applySettings ⟨none, fun _ => none⟩ settingsDom0).dataTheme = settingsDom0.dataTheme :=
  ⟨(applySettings_missing_keys ⟨none, fun _ => none⟩ settingsDom0).1
      "language-select" "language" (by decide) rfl,
   ((applySettings_missing_keys ⟨none, fun _ => none⟩ settingsDom0).2.2 rfl).1⟩

end DashboardData

lemma jsRound_thousand : jsRound 1 (999999 / 1000) = 10000 := by
  rw [jsRound]; norm_num [abs_of_nonneg]; rfl

/-- C7: the number formatter at the one-decimal default returns `999.0` for
999, `1.5k` for 1500 and `2.5M` for 2500000; the `k` scaling starts exactly
at 1000 and the `M` scaling exactly at 1000000 (999999 is still rendered
with the `k` suffix). This holds for the v2 core formatter, the v1 core
formatter and the dashboard.js utility alike. -/
theorem formatNumber_thresholds :
    Dashboard.formatNumber 999 1 = "999.0" ∧
    Dashboard.formatNumber 1500 1 = "1.5k" ∧
    Dashboard.formatNumber 2500000 1 = "2.5M" ∧
    Dashboard.formatNumber 1000 1 = "1.0k" ∧
    Dashboard.formatNumber 999999 1 = "1000.0k" ∧
    Dashboard.formatNumber 1000000 1 = "1.0M" ∧
    formatUtils.number 999 1 = "999.0" ∧
    formatUtils.number 1500 1 = "1.5k" ∧
    formatUtils.number 2500000 1 = "2.5M" ∧
    formatNumberCoreV1 999 = "999.0" ∧
    formatNumberCoreV1 1500 = "1.5k" ∧
    formatNumberCoreV1 2500000 = "2.5M" := by
  have h999 : jsRound 1 (999 : ℚ) = 9990 := jsRound_999
  have h15 : jsRound 1 ((3 : ℚ) / 2) = 15 := jsRound_three_halves
  have h25 : jsRound 1 ((5 : ℚ) / 2) = 25 := jsRound_five_halves
  have h1 : jsRound 1 (1 : ℚ) = 10 := jsRound_one
  have hk : jsRound 1 ((999999 : ℚ) / 1000) = 10000 := jsRound_thousand
  refine ⟨?_, ?_, ?_, ?_, ?_, ?_, ?_, ?_, ?_, ?_, ?_, ?_⟩ <;>
    norm_num [Dashboard.formatNumber, formatUtils.number, formatNumberCoreV1, jsToFixed,
      abs_of_nonneg, h999, h15, h25, h1, hk] <;> decide

/-- C9: the percentage formatter scales only inputs inside `[0, 1]` — there
it multiplies by 100 before formatting, outside it formats the raw value —
producing the discontinuity `formatPercentage(1) = "100.0%"` versus
`formatPercentage(1.5) = "1.5%"`; the dashboard.js utility behaves the
same. -/
theorem formatPercentage_scaling (v : ℚ) (d : ℕ) :
    (0 ≤ v → v ≤ 1 →
      Dashboard.formatPercentage v d = jsToFixed d (v * 100) ++ "%" ∧
      formatUtils.percentage v d = jsToFixed d (v * 100) ++ "%") ∧
    (¬ (0 ≤ v ∧ v ≤ 1) →
      Dashboard.formatPercentage v d = jsToFixed d v ++ "%" ∧
      formatUtils.percentage v d = jsToFixed d v ++ "%") ∧
    Dashboard.formatPercentage 1 1 = "100.0%" ∧
    Dashboard.formatPercentage (3 / 2) 1 = "1.5%" := by
  refine ⟨?_, ?_, ?_, ?_⟩
  · intro h0 h1
    constructor <;>
      simp only [Dashboard.formatPercentage, formatUtils.percentage, if_pos (And.intro h0 h1)]
  · intro h
    constructor <;>
      simp only [Dashboard.formatPercentage, formatUtils.percentage, if_neg h]
  · norm_num [Dashboard.formatPercentage, jsToFixed, jsRound_hundred]
    decide
  · norm_num [Dashboard.formatPercentage, jsToFixed, jsRound_three_halves]
    decide

/-- Witness for C9: the fractional input `1/2` is scaled to `50.0%`. -/
theorem formatPercentage_scaling_witness :
    Dashboard.formatPercentage (1 / 2) 1 = jsToFixed 1 ((1 / 2 : ℚ) * 100) ++ "%" :=
  (((formatPercentage_scaling (1 / 2) 1).1 (by norm_num) (by norm_num))).1

/-- C10: both file-size formatters return `"0 B"` for 0 bytes through the
explicit guard (over natural byte counts, 0 is the only falsy input, so the
`!bytes` guard of the core version and the `bytes === 0` guard of the
utility coincide), and the logarithm-based unit-selection branch is reached
exactly on the nonzero inputs. -/
theorem formatFileSize_zero_guard :
    Dashboard.formatFileSize 0 = "0 B" ∧
    formatUtils.fileSize 0 = "0 B" ∧
    (∀ b : ℕ, Dashboard.formatFileSize b = "0 B" ∨
      (b ≠ 0 ∧ Dashboard.formatFileSize b = Dashboard.fileSizeLogBranch b)) ∧
    (∀ b : ℕ, formatUtils.fileSize b = "0 B" ∨
      (b ≠ 0 ∧ formatUtils.fileSize b = Dashboard.fileSizeLogBranch b)) := by
  refine ⟨rfl, rfl, ?_, ?_⟩ <;> intro b <;> by_cases hb : b = 0
  · left
    rw [Dashboard.formatFileSize, if_pos hb]
  · right
    exact ⟨hb, by rw [Dashboard.formatFileSize, if_neg hb]⟩
  · left
    rw [formatUtils.fileSize, if_pos hb]
  · right
    exact ⟨hb, by rw [formatUtils.fileSize, if_neg hb]⟩
